import Mathlib

/-!
Shallow embedding of `chiller_plant_analyzer.py`, a single-pass Streamlit
calculator for chiller-plant performance metrics. Every numeric value is
modelled as a rational; Python's `x / y`, which raises `ZeroDivisionError`
when `y = 0`, is modelled by `div?` returning `Option ℚ`, so a computation
that divides by zero evaluates to `none` and any dependent computation
propagates the failure (monadic `Option` bind, mirroring exception
propagation in the script).
-/

namespace ChillerPlant

/-- The sidebar radio selector `unit_system` (line 10): `"SI"` or `"I-P"`. -/
inductive UnitSystem where
  | SI : UnitSystem
  | IP : UnitSystem
deriving DecidableEq

/-- Python division: raises `ZeroDivisionError` (modelled as `none`) when the
denominator is zero, otherwise exact division. -/
def div? (a b : ℚ) : Option ℚ :=
  if b = 0 then none else some (a / b)

/-- Python's `round(x, 3)`: round to 3 decimal places. (Python rounds binary
floats half-to-even; over ℚ we use nearest-integer rounding, which agrees
off ties — all values in this development are off ties.) -/
def round3 (x : ℚ) : ℚ :=
  ((round (x * 1000) : ℤ) : ℚ) / 1000

/-- Python's `round(x, 2)`: round to 2 decimal places. -/
def round2 (x : ℚ) : ℚ :=
  ((round (x * 100) : ℤ) : ℚ) / 100

/-- The three derived chiller metrics (lines 17-24). -/
structure ChillerMetrics where
  cop : ℚ
  eer : ℚ
  kw_per_ton : ℚ
deriving DecidableEq

/-- Lines 17-24: the chiller-metrics branch on the unit system.
I-P: `kw_per_ton = power_input / cooling_capacity`,
`eer = cooling_capacity * 12000 / (power_input * 1000)`, `cop = eer / 3.412`.
SI: `cop = cooling_capacity / power_input`, `eer = cop * 3.412`,
`kw_per_ton = 3.5 / cop`. Evaluation order follows the source lines. -/
def chiller_metrics (u : UnitSystem) (cooling_capacity power_input : ℚ) :
    Option ChillerMetrics :=
  match u with
  | .IP => do
      let kw_per_ton ← div? power_input cooling_capacity
      let eer ← div? (cooling_capacity * 12000) (power_input * 1000)
      let cop ← div? eer (3412/1000)
      pure ⟨cop, eer, kw_per_ton⟩
  | .SI => do
      let cop ← div? cooling_capacity power_input
      let eer := cop * (3412/1000)
      let kw_per_ton ← div? (35/10) cop
      pure ⟨cop, eer, kw_per_ton⟩

/-- Line 34: `density = 1000 if unit_system == "SI" else 62.4 * 1.3558`. -/
def density (u : UnitSystem) : ℚ :=
  if u = .SI then 1000 else (624/10) * (13558/10000)

/-- Line 35: `g = 9.81 if unit_system == "SI" else 32.174`. -/
def g (u : UnitSystem) : ℚ :=
  if u = .SI then 981/100 else 32174/1000

/-- Line 36: `hydraulic_power = flow * head * density * g / 1000`. -/
def hydraulic_power (u : UnitSystem) (flow head : ℚ) : Option ℚ :=
  div? (flow * head * density u * g u) 1000

/-- Lines 36-37: hydraulic power and `efficiency = (hydraulic_power /
pump_power) * 100`, returned as the pair (hydraulic power, efficiency %). -/
def pump_efficiency (u : UnitSystem) (flow head pump_power : ℚ) :
    Option (ℚ × ℚ) := do
  let hp ← hydraulic_power u flow head
  let eff ← div? hp pump_power
  pure (hp, eff * 100)

/-- Lines 46-48: `range = cw_in - cw_out`, `approach = cw_out - wet_bulb`,
`effectiveness = range / (range + approach)`, returned as the triple
(range, approach, effectiveness fraction). The display (line 49) and the
CSV export (line 96) use `effectiveness * 100` as the percentage. -/
def tower (cw_in cw_out wet_bulb : ℚ) : Option (ℚ × ℚ × ℚ) := do
  let range := cw_in - cw_out
  let approach := cw_out - wet_bulb
  let effectiveness ← div? range (range + approach)
  pure (range, approach, effectiveness)

/-- Line 60: `sum(w / e for w, e in zip(weights, values))` — the terms are
evaluated left to right and a zero denominator raises at that term. -/
def sum_div : List (ℚ × ℚ) → Option ℚ
  | [] => some 0
  | p :: rest => do
      let t ← div? p.1 p.2
      let s ← sum_div rest
      pure (t + s)

/-- Lines 58-60: `weights = [0.01, 0.42, 0.45, 0.12]`;
`round(1 / sum(w / e for w, e in zip(weights, values)), 3)`. -/
def calc_iplv (values : List ℚ) : Option ℚ := do
  let weights : List ℚ := [1/100, 42/100, 45/100, 12/100]
  let s ← sum_div (weights.zip values)
  let r ← div? 1 s
  pure (round3 r)

/-- Line 69: `cp = 4.187` (kJ/kg·K). -/
def cp : ℚ := 4187/1000

/-- Line 70: `density_si = 997` (kg/m³). -/
def density_si : ℚ := 997

/-- Line 71: `flow_rate = capacity_kw / (cp * density_si * delta_T)`.
The unit-system selector is not consulted: the constants are SI-only. -/
def flow_rate (capacity_kw delta_T : ℚ) : Option ℚ :=
  div? capacity_kw (cp * density_si * delta_T)

/-- Line 72: the displayed flow rate, `round(flow_rate, 3)`. -/
def flow_rate_displayed (capacity_kw delta_T : ℚ) : Option ℚ :=
  (flow_rate capacity_kw delta_T).map round3

/-- Line 77: `cop_values = [cop * (1 - 0.1 * (1 - l / 100)) for l in loads]`,
each load point evaluated independently. -/
def cop_values (cop : ℚ) (loads : List ℚ) : List ℚ :=
  loads.map (fun l => cop * (1 - (1/10) * (1 - l / 100)))

/-- Line 76: the default load sequence `loads = [25, 50, 75, 100]`. -/
def loads : List ℚ := [25, 50, 75, 100]

/-- One row of the CSV export (lines 87-100), in column order. -/
structure ExportRow where
  cooling_capacity : ℚ
  power_input : ℚ
  cop : ℚ
  eer : ℚ
  kw_per_ton : ℚ
  pump_efficiency_pct : ℚ
  tower_range : ℚ
  tower_approach : ℚ
  tower_effectiveness_pct : ℚ
  iplv : ℚ
  delta_T : ℚ
  flow : ℚ
deriving DecidableEq

/-- Lines 87-100: the record serialized to CSV, built from one evaluation
pass of the whole script. `cop`, `eer`, `kw_per_ton`, pump efficiency, tower
values and `flow_rate` are exported unrounded; `iplv` is rounded inside
`calc_iplv`; tower effectiveness is exported as `effectiveness * 100`. -/
def export_row (u : UnitSystem) (cooling_capacity power_input : ℚ)
    (flow head pump_power : ℚ) (cw_in cw_out wet_bulb : ℚ)
    (kw_100 kw_75 kw_50 kw_25 : ℚ) (capacity_kw delta_T : ℚ) :
    Option ExportRow := do
  let m ← chiller_metrics u cooling_capacity power_input
  let pe ← pump_efficiency u flow head pump_power
  let tw ← tower cw_in cw_out wet_bulb
  let iplv ← calc_iplv [kw_100, kw_75, kw_50, kw_25]
  let fr ← flow_rate capacity_kw delta_T
  pure ⟨cooling_capacity, power_input, m.cop, m.eer, m.kw_per_ton,
        pe.2, tw.1, tw.2.1, tw.2.2 * 100, iplv, delta_T, fr⟩


/-- Claim C1: any metric computation invoked with a zero denominator
(powerInput = 0 for the chiller, pumpPower = 0 for the pump,
range + approach = 0 for the tower, some value i = 0 for the IPLV,
deltaT = 0 for the flow rate) fails with the DivisionByZero-class error
(modelled as `none`), which propagates to the caller with no partial or
garbage numeric result. -/
theorem c1_zero_denominator_fails (u : UnitSystem)
    (cc pi fl hd pp ci co wb v1 v2 v3 v4 ck dt : ℚ) :
    (pi = 0 → chiller_metrics u cc pi = none) ∧
    (pp = 0 → pump_efficiency u fl hd pp = none) ∧
    ((ci - co) + (co - wb) = 0 → tower ci co wb = none) ∧
    ((v1 = 0 ∨ v2 = 0 ∨ v3 = 0 ∨ v4 = 0) → calc_iplv [v1, v2, v3, v4] = none) ∧
    (dt = 0 → flow_rate ck dt = none) := by
  refine ⟨?_, ?_, ?_, ?_, ?_⟩
  · intro h
    subst h
    cases u <;> by_cases hcc : cc = 0 <;> simp [chiller_metrics, div?, hcc]
  · intro h
    subst h
    norm_num [pump_efficiency, hydraulic_power, div?]
  · intro h
    simp [tower, div?, h]
  · intro h
    by_cases h1 : v1 = 0 <;> by_cases h2 : v2 = 0 <;> by_cases h3 : v3 = 0 <;>
      by_cases h4 : v4 = 0 <;>
      simp_all [calc_iplv, sum_div, div?, List.zip]
  · intro h
    subst h
    norm_num [flow_rate, div?, cp, density_si]

/-- Witness for C1: concrete zero-denominator inputs for each of the five
computations, each evaluating to `none`. -/
theorem c1_witness :
    chiller_metrics .SI 100 0 = none ∧
    pump_efficiency .SI 1 1 0 = none ∧
    tower 30 30 30 = none ∧
    calc_iplv [0, 1, 1, 1] = none ∧
    flow_rate 1000 0 = none := by
  have h := c1_zero_denominator_fails .SI 100 0 1 1 0 30 30 30 0 1 1 1 1000 0
  exact ⟨h.1 rfl, h.2.1 rfl, h.2.2.1 (by norm_num), h.2.2.2.1 (Or.inl rfl),
    h.2.2.2.2 rfl⟩

/-- Counterexample to C2 as stated: on the spec's own example inputs
[0.6, 0.65, 0.72, 0.85] the IPLV is 1/1.428997 ≈ 0.69979, which rounds to
0.700, not the claimed 0.702. -/
theorem c2_counterexample :
    calc_iplv [6/10, 65/100, 72/100, 85/100] ≠ some (702/1000) := by
  norm_num [calc_iplv, sum_div, div?, round3, round_eq, List.zip]

/-- Claim C2 (amended): for nonzero inputs whose weighted sum is nonzero,
`calc_iplv` applies the fixed weights [0.01, 0.42, 0.45, 0.12] positionally
in input order and returns the reciprocal of the weighted sum rounded to 3
decimal places; on [0.6, 0.65, 0.72, 0.85] the result is 0.700. -/
theorem c2_iplv_formula (v1 v2 v3 v4 : ℚ) (h1 : v1 ≠ 0) (h2 : v2 ≠ 0)
    (h3 : v3 ≠ 0) (h4 : v4 ≠ 0)
    (hs : 1/100/v1 + 42/100/v2 + 45/100/v3 + 12/100/v4 ≠ 0) :
    calc_iplv [v1, v2, v3, v4] =
      some (round3 (1 / (1/100/v1 + 42/100/v2 + 45/100/v3 + 12/100/v4))) := by
  have e : 1/100/v1 + (42/100/v2 + (45/100/v3 + (12/100/v4 + 0))) =
      1/100/v1 + 42/100/v2 + 45/100/v3 + 12/100/v4 := by ring
  simp only [calc_iplv, sum_div, List.zip_cons_cons, List.zip_nil_right, div?,
    if_neg h1, if_neg h2, if_neg h3, if_neg h4, Option.pure_def,
    Option.bind_eq_bind, Option.some_bind, e, if_neg hs]

/-- Witness for C2: the amended formula applied at the spec's example
inputs [0.6, 0.65, 0.72, 0.85]. -/
theorem c2_witness :
    calc_iplv [6/10, 65/100, 72/100, 85/100] =
      some (round3 (1 / (1/100/(6/10) + 42/100/(65/100) + 45/100/(72/100) +
        12/100/(85/100)))) :=
  c2_iplv_formula (6/10) (65/100) (72/100) (85/100)
    (by norm_num) (by norm_num) (by norm_num) (by norm_num) (by norm_num)


/-- Claim C3: for coolingCapacity > 0 and powerInput > 0 under the I-P unit
system, the chiller metrics are kwPerTon = powerInput / coolingCapacity,
eer = coolingCapacity * 12000 / (powerInput * 1000), and cop = eer / 3.412. -/
theorem c3_chiller_ip (cc pi : ℚ) (hcc : 0 < cc) (hpi : 0 < pi) :
    chiller_metrics .IP cc pi =
      some ⟨cc * 12000 / (pi * 1000) / (3412/1000), cc * 12000 / (pi * 1000), pi / cc⟩ := by
  have h1 : cc ≠ 0 := ne_of_gt hcc
  have h2 : pi * 1000 ≠ 0 := by positivity
  norm_num [chiller_metrics, div?, h1, h2]

/-- Witness for C3: the I-P chiller formulas at the form defaults
(coolingCapacity = 100, powerInput = 60). -/
theorem c3_witness :
    chiller_metrics .IP 100 60 =
      some ⟨100 * 12000 / (60 * 1000) / (3412/1000), 100 * 12000 / (60 * 1000), 60 / 100⟩ :=
  c3_chiller_ip 100 60 (by norm_num) (by norm_num)

/-- Claim C4: for powerInput ≠ 0 and cop ≠ 0 under the SI unit system, the
chiller metrics are cop = coolingCapacity / powerInput, eer = cop * 3.412 and
kwPerTon = 3.5 / cop, and kwPerTon * cop = 3.5. -/
theorem c4_chiller_si (cc pi : ℚ) (hpi : pi ≠ 0) (hcop : cc / pi ≠ 0) :
    chiller_metrics .SI cc pi =
      some ⟨cc / pi, cc / pi * (3412/1000), (35/10) / (cc / pi)⟩ ∧
    (35/10) / (cc / pi) * (cc / pi) = 35/10 := by
  refine ⟨by simp [chiller_metrics, div?, hpi, hcop], div_mul_cancel₀ _ hcop⟩

/-- Witness for C4: at coolingCapacity = 100, powerInput = 20 the SI branch
gives cop = 5, eer = 17.06 and kwPerTon = 0.7, and 0.7 * 5 = 3.5. -/
theorem c4_witness :
    chiller_metrics .SI 100 20 = some ⟨5, 853/50, 7/10⟩ ∧
    (7/10 : ℚ) * 5 = 35/10 := by
  have h := c4_chiller_si 100 20 (by norm_num) (by norm_num)
  norm_num at h ⊢
  exact h

/-- Counterexample to C5 as stated: at the form defaults the CSV export
serializes the unrounded flow rate (line 99 of the source uses `flow_rate`,
not `round(flow_rate, 3)`), so the exported value differs from the rounded
one. Only the displayed value (line 72) is rounded. -/
theorem c5_counterexample :
    (export_row .SI 100 60 (2/100) 30 6 35 30 28 (6/10) (65/100) (72/100)
        (85/100) 1000 6).map ExportRow.flow
      ≠ (flow_rate 1000 6).map round3 := by
  norm_num [export_row, chiller_metrics, pump_efficiency, hydraulic_power,
    density, g, tower, calc_iplv, sum_div, div?, round3, round_eq,
    flow_rate, cp, density_si, List.zip]

/-- Claim C5 (amended): for deltaT ≠ 0, the required flow rate is
capacityKw / (4.187 * 997 * deltaT) with the fixed SI constants regardless of
the unit system (the export field is the same for every unit-system value);
the displayed value is rounded to 3 decimal places, while the CSV export
serializes the unrounded value. -/
theorem c5_flow_rate (ck dt : ℚ) (h : dt ≠ 0) :
    flow_rate ck dt = some (ck / ((4187/1000) * 997 * dt)) ∧
    flow_rate_displayed ck dt = some (round3 (ck / ((4187/1000) * 997 * dt))) ∧
    ∀ (u : UnitSystem) (cc pi fl hd pp ci co wb v1 v2 v3 v4 : ℚ) (r : ExportRow),
      export_row u cc pi fl hd pp ci co wb v1 v2 v3 v4 ck dt = some r →
      r.flow = ck / ((4187/1000) * 997 * dt) := by
  have h0 : cp * density_si * dt ≠ 0 := by
    simp [cp, density_si]
    exact h
  have hfr : flow_rate ck dt = some (ck / ((4187/1000) * 997 * dt)) := by
    rw [flow_rate, div?, if_neg h0]
    norm_num [cp, density_si]
  refine ⟨hfr, ?_, ?_⟩
  · rw [flow_rate_displayed, hfr]
    rfl
  · intro u cc pi fl hd pp ci co wb v1 v2 v3 v4 r hr
    simp only [export_row, Option.pure_def, Option.bind_eq_bind,
      Option.bind_eq_some] at hr
    obtain ⟨m, -, pe, -, tw, -, ip, -, fr, hfr2, hrr⟩ := hr
    rw [hfr] at hfr2
    obtain rfl : r = _ := (Option.some_inj.mp hrr).symm
    exact (Option.some_inj.mp hfr2).symm ▸ rfl

/-- Witness for C5: the flow-rate formula and its rounded display at
capacityKw = 1000, deltaT = 6. -/
theorem c5_witness :
    flow_rate 1000 6 = some (1000 / ((4187/1000) * 997 * 6)) ∧
    flow_rate_displayed 1000 6 = some (round3 (1000 / ((4187/1000) * 997 * 6))) :=
  ⟨(c5_flow_rate 1000 6 (by norm_num)).1, (c5_flow_rate 1000 6 (by norm_num)).2.1⟩

/-- Claim C6: for (cwIn - cwOut) + (cwOut - wetBulb) ≠ 0 the tower metrics
are range = cwIn - cwOut, approach = cwOut - wetBulb, and the exported
effectiveness percentage is range / (range + approach) * 100, with no domain
validation (only the denominator hypothesis is needed, so cwOut > cwIn is
accepted). -/
theorem c6_tower (ci co wb : ℚ) (h : (ci - co) + (co - wb) ≠ 0) :
    tower ci co wb = some (ci - co, co - wb, (ci - co) / ((ci - co) + (co - wb))) ∧
    ∀ (u : UnitSystem) (cc pi fl hd pp v1 v2 v3 v4 ck dt : ℚ) (r : ExportRow),
      export_row u cc pi fl hd pp ci co wb v1 v2 v3 v4 ck dt = some r →
      r.tower_range = ci - co ∧ r.tower_approach = co - wb ∧
      r.tower_effectiveness_pct = (ci - co) / ((ci - co) + (co - wb)) * 100 := by
  have htw : tower ci co wb =
      some (ci - co, co - wb, (ci - co) / ((ci - co) + (co - wb))) := by
    rw [tower]
    simp only [div?, if_neg h, Option.pure_def, Option.bind_eq_bind, Option.some_bind]
  refine ⟨htw, ?_⟩
  intro u cc pi fl hd pp v1 v2 v3 v4 ck dt r hr
  simp only [export_row, Option.pure_def, Option.bind_eq_bind,
    Option.bind_eq_some] at hr
  obtain ⟨m, -, pe, -, tw, htw2, ip, -, fr, -, hrr⟩ := hr
  rw [htw] at htw2
  obtain rfl : tw = _ := (Option.some_inj.mp htw2).symm
  obtain rfl : r = _ := (Option.some_inj.mp hrr).symm
  exact ⟨rfl, rfl, rfl⟩

/-- Witness for C6: inputs (35, 30, 28) give range = 5, approach = 2 and
effectiveness 5/7, displayed as 71.43 %; the reversed inputs (30, 35, 28)
with cwOut > cwIn are accepted and give a negative range. -/
theorem c6_witness :
    tower 35 30 28 = some (5, 2, 5/7) ∧
    round2 ((5 : ℚ)/7 * 100) = 7143/100 ∧
    tower 30 35 28 = some (-5, 7, -(5/2)) := by
  have h1 := (c6_tower 35 30 28 (by norm_num)).1
  have h2 := (c6_tower 30 35 28 (by norm_num)).1
  norm_num at h1 h2
  exact ⟨h1, by norm_num [round2, round_eq], h2⟩

/-- Claim C7: for pumpPower ≠ 0, hydraulicPower = flow * head * density * g
/ 1000 and efficiencyPercent = hydraulicPower / pumpPower * 100, with
density = 1000 and g = 9.81 under SI and density = 62.4 * 1.3558 and
g = 32.174 under I-P. -/
theorem c7_pump (u : UnitSystem) (fl hd pp : ℚ) (h : pp ≠ 0) :
    pump_efficiency u fl hd pp =
      some (fl * hd * density u * g u / 1000,
            fl * hd * density u * g u / 1000 / pp * 100) ∧
    density .SI = 1000 ∧ g .SI = 981/100 ∧
    density .IP = (624/10) * (13558/10000) ∧ g .IP = 32174/1000 := by
  refine ⟨?_, rfl, rfl, rfl, rfl⟩
  norm_num [pump_efficiency, hydraulic_power, div?, h]

/-- Witness for C7: inputs (0.02, 30, 6) under SI give hydraulicPower =
5.886 and efficiency = 98.1 %. -/
theorem c7_witness :
    pump_efficiency .SI (2/100) 30 6 = some (2943/500, 981/10) := by
  have h := (c7_pump .SI (2/100) 30 6 (by norm_num)).1
  norm_num [density, g] at h ⊢
  exact h

/-- Claim C8: for cop > 0, each load point l maps independently to
cop * (1 - 0.1 * (1 - l / 100)); over the default loads [25, 50, 75, 100]
the values are strictly increasing and the value at load 100 equals cop. -/
theorem c8_cop_curve (c : ℚ) (hc : 0 < c) :
    (∀ ls : List ℚ, cop_values c ls =
      ls.map (fun l => c * (1 - (1/10) * (1 - l / 100)))) ∧
    List.Chain' (· < ·) (cop_values c loads) ∧
    (cop_values c loads).getLast? = some c := by
  have hl : cop_values c loads = [c * (37/40), c * (19/20), c * (39/40), c] := by
    norm_num [cop_values, loads]
  refine ⟨fun ls => rfl, ?_, ?_⟩
  · rw [hl]
    simp only [List.chain'_cons, List.chain'_singleton, and_true]
    refine ⟨by nlinarith, by nlinarith, by nlinarith⟩
  · rw [hl]
    rfl

/-- Witness for C8: the curve at cop = 5 over the default loads is strictly
increasing and ends at 5. -/
theorem c8_witness :
    List.Chain' (· < ·) (cop_values 5 loads) ∧
    (cop_values 5 loads).getLast? = some 5 :=
  ⟨(c8_cop_curve 5 (by norm_num)).2.1, (c8_cop_curve 5 (by norm_num)).2.2⟩

/-- Claim C9 (implicit): for pumpPower ≠ 0 the pump computation never
fails under either unit system, and flow = 0 or head = 0 is accepted,
yielding hydraulicPower = 0 and efficiencyPercent = 0 rather than an
error. -/
theorem c9_pump_total (u : UnitSystem) (fl hd pp : ℚ) (h : pp ≠ 0) :
    (pump_efficiency u fl hd pp).isSome = true ∧
    (fl = 0 ∨ hd = 0 → pump_efficiency u fl hd pp = some (0, 0)) := by
  constructor
  · norm_num [pump_efficiency, hydraulic_power, div?, h]
  · rintro (h0 | h0) <;> subst h0 <;>
      norm_num [pump_efficiency, hydraulic_power, div?, h]

/-- Witness for C9: flow = 0 with head = 30 and pumpPower = 6 under SI
succeeds with the zero pair. -/
theorem c9_witness :
    (pump_efficiency .SI 0 30 6).isSome = true ∧
    pump_efficiency .SI 0 30 6 = some (0, 0) := by
  have h := c9_pump_total .SI 0 30 6 (by norm_num)
  exact ⟨h.1, h.2 (Or.inl rfl)⟩

/-- Claim C10 (implicit): there is a 4-tuple of all-nonzero inputs on which
`calc_iplv` still fails, because the weighted sum itself vanishes for
mixed-sign values — all-nonzero inputs are not a sufficient precondition. -/
theorem c10_iplv_nonzero_failure :
    ∃ v1 v2 v3 v4 : ℚ, v1 ≠ 0 ∧ v2 ≠ 0 ∧ v3 ≠ 0 ∧ v4 ≠ 0 ∧
      calc_iplv [v1, v2, v3, v4] = none := by
  refine ⟨1, 1, 1, -3/22, by norm_num, by norm_num, by norm_num, by norm_num, ?_⟩
  norm_num [calc_iplv, sum_div, div?, List.zip]

end ChillerPlant
